import Mathlib

/-!
Verification of the rim authentication and session core.

The Go source is shallowly embedded: Go byte strings are modelled as lists
of characters (`Str`), machine integers as `Nat`/`Int`, `time.Time` values
as integers, the Redis session store as an association list, and the
relational database as record lists.  Fallible Go code returns
`Option`/`Except`; a Go runtime panic is modelled as `Option.none` or a
dedicated `panic` constructor of the result type.
-/

namespace Rim

/-- Go byte strings, modelled as lists of characters (all values exercised
by the program are ASCII, where Go's byte indexing and character indexing
agree). -/
abbrev Str := List Char

/-- Substring test, mirroring Go `strings.Contains`. -/
def containsSubstr (s pat : Str) : Bool :=
  (List.range (s.length + 1)).any fun i => pat.isPrefixOf (s.drop i)

/-- Suffix test, mirroring Go `strings.HasSuffix`. -/
def hasSuffix (s suffix : Str) : Bool :=
  suffix.isSuffixOf s

/-- Byte-lexicographic comparison of Go strings (`s <= t`), as used by
`sort.Strings`. -/
def strLe : Str → Str → Bool
  | [], _ => true
  | _ :: _, [] => false
  | a :: as, b :: bs =>
    if a < b then true
    else if a = b then strLe as bs
    else false

/-- Lower-case hexadecimal digit, as produced by Go `encoding/hex`. -/
def hexDigit (n : Nat) : Char :=
  if n < 10 then Char.ofNat (48 + n) else Char.ofNat (97 + (n - 10))

/-- Go `hex.EncodeToString`: two lower-case hex digits per byte. -/
def hexEncode (bytes : List Nat) : Str :=
  bytes.flatMap fun b => [hexDigit (b / 16 % 16), hexDigit (b % 16)]

/-- The `"Bearer "` marker expected at the front of the Authorization
header (`auth_handler.go`, `extractSessionToken`). -/
def bearerMarker : Str := "Bearer ".data

/-- Function `extractSessionToken` (auth_handler.go): reads the Authorization
header; expects the form `Bearer <token>`, returning the empty string on
any other shape.  The argument is the raw header value (empty when the
header is absent, as Go's `c.Get` returns `""`). -/
def extractSessionToken (authorizationHeader : Str) : Str :=
  if authorizationHeader = [] then []
  else if authorizationHeader.length ≤ bearerMarker.length then []
  else if authorizationHeader.take bearerMarker.length ≠ bearerMarker then []
  else authorizationHeader.drop bearerMarker.length

/-- Function `generateCSRFToken` (middleware, part of the auth delivery package):
hex-encodes 16 random bytes and appends the first 8 characters of the
session token.  The Go expression `sessionToken[:8]` panics when the
session token is shorter than 8 bytes; the panic is modelled as `none`.
The random bytes drawn by `rand.Read` are passed in as a parameter. -/
def generateCSRFToken (randomBytes : List Nat) (sessionToken : Str) : Option Str :=
  if sessionToken.length < 8 then none
  else some (hexEncode randomBytes ++ sessionToken.take 8)

/-- Function `validateCSRFToken`: rejects presented tokens shorter than 40 bytes,
otherwise compares `csrfToken[32:]` with `sessionToken[:8]`.  The Go
expression `sessionToken[:8]` panics when the session token is shorter
than 8 bytes (reached only when the presented token passed the length
check); the panic is modelled as `none`. -/
def validateCSRFToken (sessionToken csrfToken : Str) : Option Bool :=
  if csrfToken.length < 40 then some false
  else if sessionToken.length < 8 then none
  else some (decide (csrfToken.drop 32 = sessionToken.take 8))

/-! ## Telegram signature verification (auth usecase) -/

/-- Structure `TelegramAuthData` (auth usecase): the login claim submitted by the
Telegram widget. -/
structure TelegramAuthData where
  id : Int
  firstName : Str
  lastName : Str
  username : Str
  photoURL : Str
  authDate : Int
  hash : Str

/-- Go `strconv.FormatInt(i, 10)`. -/
def intToStr (i : Int) : Str := (toString i).data

/-- Insertion of one key/value pair into a key-sorted list. -/
def insertByKey (x : Str × Str) : List (Str × Str) → List (Str × Str)
  | [] => [x]
  | y :: ys => if strLe x.1 y.1 then x :: y :: ys else y :: insertByKey x ys

/-- Key-sorting of the parameter entries: the net effect of collecting the
Go map's keys, sorting them with `sort.Strings`, and emitting the entries
in key order (the map's random iteration order is irrelevant because the
keys are distinct). -/
def sortByKey (l : List (Str × Str)) : List (Str × Str) :=
  l.foldr insertByKey []

/-- Function `createDataCheckString` (auth usecase): `id` and `auth_date` are always
present, the four optional string fields only when non-empty; entries are
emitted as `key=value`, sorted by key, joined with newlines, with no URL
encoding. -/
def createDataCheckString (a : TelegramAuthData) : Str :=
  let params : List (Str × Str) :=
    [("id".data, intToStr a.id), ("auth_date".data, intToStr a.authDate)]
    ++ (if a.firstName ≠ [] then [("first_name".data, a.firstName)] else [])
    ++ (if a.lastName ≠ [] then [("last_name".data, a.lastName)] else [])
    ++ (if a.username ≠ [] then [("username".data, a.username)] else [])
    ++ (if a.photoURL ≠ [] then [("photo_url".data, a.photoURL)] else [])
  List.intercalate "\n".data ((sortByKey params).map fun p => p.1 ++ "=".data ++ p.2)

/-- The data-check string as the specification describes it: every
non-empty claim field except the signature, formatted as `key=value`,
in lexicographic key order (`auth_date` < `first_name` < `id` <
`last_name` < `photo_url` < `username`), joined with newlines. -/
def canonicalDataCheckString (a : TelegramAuthData) : Str :=
  List.intercalate "\n".data
    (["auth_date=".data ++ intToStr a.authDate]
     ++ (if a.firstName ≠ [] then ["first_name=".data ++ a.firstName] else [])
     ++ ["id=".data ++ intToStr a.id]
     ++ (if a.lastName ≠ [] then ["last_name=".data ++ a.lastName] else [])
     ++ (if a.photoURL ≠ [] then ["photo_url=".data ++ a.photoURL] else [])
     ++ (if a.username ≠ [] then ["username=".data ++ a.username] else []))

/-- Function `verifyTelegramAuth` (auth usecase).  The cryptographic primitives of
the Go standard library are abstracted as parameters: `sha256` digests a
byte string, `hmacSha256 key msg` is the HMAC-SHA256 MAC.  The secret key
is the SHA-256 digest of the bot token; the expected signature is the
hex-encoded HMAC of the data-check string; on signature match the claim
must additionally be at most 24 hours old (`time.Since` works in
nanoseconds; `nowNs` is the verification instant in Unix nanoseconds,
`authDate` is in Unix seconds). -/
def verifyTelegramAuth (sha256 : Str → List Nat) (hmacSha256 : List Nat → Str → List Nat)
    (a : TelegramAuthData) (botToken : Str) (nowNs : Int) : Bool :=
  let dataCheckString := createDataCheckString a
  let secretKey := sha256 botToken
  let expectedHash := hexEncode (hmacSha256 secretKey dataCheckString)
  if expectedHash ≠ a.hash then false
  else if nowNs - a.authDate * 1000000000 > 24 * 60 * 60 * 1000000000 then false
  else true

/-! ## Data model (internal/domain/models.go) -/

/-- Structure `domain.Group`: a named group of contacts. -/
structure Group where
  id : Nat
  name : Str
deriving DecidableEq

/-- Structure `domain.Contact`: a directory entry; `groups` holds the
many-to-many group memberships as stored in the join table. -/
structure Contact where
  id : Nat
  name : Str
  phone : Str
  email : Str
  transport : Str
  printer : Str
  allergies : Str
  vk : Str
  telegram : Str
  telegramID : Int
  groups : List Group
deriving DecidableEq

/-- Structure `domain.User`: a stable internal identity keyed by Telegram
provider ID. -/
structure User where
  id : Nat
  telegramID : Int
  contactID : Option Nat
  isActive : Bool
deriving DecidableEq

/-- Structure `domain.UserSession`: the session record serialized into the
session store; times are integers (Go `time.Time` instants). -/
structure UserSession where
  sessionToken : Str
  userID : Nat
  createdAt : Int
  expiredAt : Int
deriving DecidableEq

/-- The relational database state: users, contacts (with their stored
group memberships), and the key/value system settings table. -/
structure DB where
  users : List User
  contacts : List Contact
  settings : List (Str × Str)
deriving DecidableEq

/-- The Redis session namespace: full key (`session:<token>`) to serialized
session record. -/
abbrev Store := List (Str × UserSession)

/-! ## Repositories -/

/-- User lookup by surrogate ID.  `GetUserByID` delegates to
`BaseRepository.GetByID` (rim/pkg/repository, whose source is not in the
provided tree).  Modelled from the spec: load the User by the session's
owning ID, with a record-not-found outcome (`none`) when absent. -/
def getUserByID (db : DB) (id : Nat) : Option User :=
  db.users.find? fun u => u.id = id

/-- Contact repository `GetByTelegramID`: a `First` query on `telegram_id`
with no `Preload("Groups")`, so the record is returned without its group
associations (GORM only loads a many-to-many association when preloaded;
contrast the repository's `GetByID`, which does `Preload("Groups")`). -/
def contactGetByTelegramID (db : DB) (telegramID : Int) : Option Contact :=
  (db.contacts.find? fun c => c.telegramID = telegramID).map fun c => { c with groups := [] }

/-- Contact repository `GetByEmail` (`First` on `email`, no preload). -/
def contactGetByEmail (db : DB) (email : Str) : Option Contact :=
  (db.contacts.find? fun c => c.email = email).map fun c => { c with groups := [] }

/-- Contact repository `GetByPhone` (`First` on `phone`, no preload). -/
def contactGetByPhone (db : DB) (phone : Str) : Option Contact :=
  (db.contacts.find? fun c => c.phone = phone).map fun c => { c with groups := [] }

/-- System repository `GetSetting`: `First` on the settings key. -/
def getSetting (db : DB) (key : Str) : Option Str :=
  (db.settings.find? fun p => p.1 = key).map fun p => p.2

/-- System repository `SetSetting`: `FirstOrCreate` with `Assign` — update
the row when the key exists, insert it otherwise. -/
def setSetting (db : DB) (key value : Str) : DB :=
  if (db.settings.find? fun p => p.1 = key).isSome then
    { db with settings := db.settings.map fun p => if p.1 = key then (p.1, value) else p }
  else
    { db with settings := db.settings ++ [(key, value)] }

/-- Session key layout in Redis (`getSessionKey`). -/
def sessionKey (token : Str) : Str := "session:".data ++ token

/-- Lookup of a raw session record in the store (Redis `GET`). -/
def lookupSession (store : Store) (token : Str) : Option UserSession :=
  (store.find? fun p => p.1 = sessionKey token).map fun p => p.2

/-- Auth repository `DeleteSession` (Redis `DEL`): unconditional and
idempotent. -/
def deleteSession (store : Store) (token : Str) : Store :=
  store.filter fun p => p.1 ≠ sessionKey token

/-- Auth repository `GetSession`: absent key yields the error message
`session not found`; a present record whose expiry lies strictly before
`now` (Go `time.Now().After(session.ExpiredAt)`) is deleted from the store
and yields `session expired`; otherwise the record is returned.  The
returned store reflects the defensive delete. -/
def getSession (store : Store) (now : Int) (token : Str) :
    Except Str UserSession × Store :=
  match lookupSession store token with
  | none => (.error "session not found".data, store)
  | some s =>
    if now > s.expiredAt then (.error "session expired".data, deleteSession store token)
    else (.ok s, store)

/-! ## System usecase -/

/-- The settings key of the persisted debug-mode flag. -/
def debugModeKey : Str := "debug_mode".data

/-- Go `strconv.FormatBool`. -/
def formatBool (b : Bool) : Str := if b then "true".data else "false".data

/-- Go `strconv.ParseBool`: accepts the twelve literal spellings, fails on
anything else. -/
def parseBool (s : Str) : Except Str Bool :=
  if s = "1".data ∨ s = "t".data ∨ s = "T".data ∨ s = "true".data ∨
     s = "TRUE".data ∨ s = "True".data then .ok true
  else if s = "0".data ∨ s = "f".data ∨ s = "F".data ∨ s = "false".data ∨
     s = "FALSE".data ∨ s = "False".data then .ok false
  else .error "invalid syntax".data

/-- System usecase `GetDebugMode`: a missing setting row is reported as
`false` (not an error); a present row is parsed with `strconv.ParseBool`,
whose failure propagates. -/
def getDebugMode (db : DB) : Except Str Bool :=
  match getSetting db debugModeKey with
  | none => .ok false
  | some v => parseBool v

/-- System usecase `SetDebugMode`: persist `strconv.FormatBool(enabled)`
under the debug-mode key. -/
def setDebugMode (db : DB) (enabled : Bool) : DB :=
  setSetting db debugModeKey (formatBool enabled)

/-! ## Auth usecase -/

/-- Sentinel errors of the auth usecase plus a passthrough for raw
repository errors. -/
inductive AuthErr where
  | sessionNotFound
  | sessionExpired
  | userNotFound
  | contactNotFound
  | other (msg : Str)
deriving DecidableEq

/-- Auth usecase `GetUserBySession`: classify the repository error by
substring (`strings.Contains`), then load the owning user; a missing or
inactive user is reported as `userNotFound`.  Returns the store as left by
the repository's defensive delete. -/
def getUserBySession (db : DB) (store : Store) (now : Int) (token : Str) :
    Except AuthErr User × Store :=
  match getSession store now token with
  | (.error msg, store') =>
    if containsSubstr msg "not found".data then (.error .sessionNotFound, store')
    else if containsSubstr msg "expired".data then (.error .sessionExpired, store')
    else (.error (.other msg), store')
  | (.ok session, store') =>
    match getUserByID db session.userID with
    | none => (.error .userNotFound, store')
    | some user =>
      if user.isActive then (.ok user, store') else (.error .userNotFound, store')

/-- The reserved, hard-coded admin group name. -/
def adminGroupName : Str := "Администраторы".data

/-- Auth usecase `IsUserAdmin`: load the user, look the contact up by the
user's Telegram ID (via `contactGetByTelegramID`, which returns no group
associations), and scan the loaded associations for the admin group
name. -/
def isUserAdmin (db : DB) (userID : Nat) : Except Str Bool :=
  match getUserByID db userID with
  | none => .error "record not found".data
  | some user =>
    match contactGetByTelegramID db user.telegramID with
    | none => .ok false
    | some contact => .ok (contact.groups.any fun g => g.name = adminGroupName)

/-- Modelled from the spec: the privilege check as the specification
describes it — resolve the user, find the directory entry by provider ID
together with its group memberships, privileged iff some membership's name
equals the reserved admin group name, no entry means not privileged.  The
deployed `isUserAdmin` differs in that its contact lookup loads no group
memberships. -/
def isUserAdminSpec (db : DB) (userID : Nat) : Except Str Bool :=
  match getUserByID db userID with
  | none => .error "record not found".data
  | some user =>
    match db.contacts.find? (fun c => c.telegramID = user.telegramID) with
    | none => .ok false
    | some contact => .ok (contact.groups.any fun g => g.name = adminGroupName)

/-- Go `strings.TrimSpace`. -/
def trimSpace (s : Str) : Str :=
  ((s.dropWhile Char.isWhitespace).reverse.dropWhile Char.isWhitespace).reverse

/-- Structure `UpdateUserContactData` (auth usecase): optional fields of a
contact self-update; `none` means the field was absent from the request. -/
structure UpdateUserContactData where
  name : Option Str := none
  phone : Option Str := none
  email : Option Str := none
  transport : Option Str := none
  printer : Option Str := none
  allergies : Option Str := none
  vk : Option Str := none
  telegram : Option Str := none
  telegramID : Option Int := none
deriving DecidableEq

/-- Contact repository `Update`: rewrites the stored row's `Name`,
`Phone`, `Email`, `Transport`, `Printer`, `Allergies`, `VK` and `Telegram`
columns (the `Select` list — `TelegramID` is not among them, so a changed
Telegram ID is not persisted).  The group-association replacement step is
skipped because the contact the auth usecase passes in was loaded without
associations (`contact.Groups` is nil). -/
def contactUpdate (db : DB) (c : Contact) : DB :=
  { db with
    contacts := db.contacts.map fun old =>
      if old.id = c.id then
        { old with
          name := c.name, phone := c.phone, email := c.email,
          transport := c.transport, printer := c.printer,
          allergies := c.allergies, vk := c.vk, telegram := c.telegram }
      else old }

/-- Auth usecase `UpdateUserContact`: resolve the user, find the contact by
the user's Telegram ID, apply each present field (name/email/phone only
when the trimmed value is non-empty and differs, with email/phone
uniqueness checks against other contacts), and write the contact back only
when something changed. -/
def updateUserContact (db : DB) (userID : Nat) (d : UpdateUserContactData) :
    Except AuthErr (Contact × DB) := do
  let user ← match getUserByID db userID with
    | none => throw (AuthErr.other "record not found".data)
    | some u => pure u
  let c0 ← match contactGetByTelegramID db user.telegramID with
    | none => throw AuthErr.contactNotFound
    | some c => pure c
  let mut contact := c0
  let mut changed := false
  match d.name with
  | some v =>
    let name := trimSpace v
    if name ≠ [] ∧ contact.name ≠ name then
      contact := { contact with name := name }
      changed := true
  | none => pure ()
  match d.email with
  | some v =>
    let email := trimSpace v
    if email ≠ [] ∧ contact.email ≠ email then
      match contactGetByEmail db email with
      | some existing =>
        if existing.id ≠ contact.id then
          throw (AuthErr.other "email already exists".data)
      | none => pure ()
      contact := { contact with email := email }
      changed := true
  | none => pure ()
  match d.phone with
  | some v =>
    let phone := trimSpace v
    if phone ≠ [] ∧ contact.phone ≠ phone then
      match contactGetByPhone db phone with
      | some existing =>
        if existing.id ≠ contact.id then
          throw (AuthErr.other "phone already exists".data)
      | none => pure ()
      contact := { contact with phone := phone }
      changed := true
  | none => pure ()
  match d.transport with
  | some v =>
    if contact.transport ≠ v then
      contact := { contact with transport := v }
      changed := true
  | none => pure ()
  match d.printer with
  | some v =>
    if contact.printer ≠ v then
      contact := { contact with printer := v }
      changed := true
  | none => pure ()
  match d.allergies with
  | some v =>
    if contact.allergies ≠ v then
      contact := { contact with allergies := v }
      changed := true
  | none => pure ()
  match d.vk with
  | some v =>
    if contact.vk ≠ v then
      contact := { contact with vk := v }
      changed := true
  | none => pure ()
  match d.telegram with
  | some v =>
    if contact.telegram ≠ v then
      contact := { contact with telegram := v }
      changed := true
  | none => pure ()
  match d.telegramID with
  | some v =>
    if contact.telegramID ≠ v then
      contact := { contact with telegramID := v }
      changed := true
  | none => pure ()
  if ¬ changed then
    return (contact, db)
  return (contact, contactUpdate db contact)

/-! ## HTTP boundary (fiber handlers and middleware) -/

/-- An incoming HTTP request as the handlers observe it.  Absent headers,
cookies and form values read as the empty string, matching fiber's
`c.Get`, `c.Cookies` and `c.FormValue`. -/
structure Request where
  method : Str
  path : Str
  authorizationHeader : Str
  sessionCookie : Str
  xCsrfToken : Str
  formCsrf : Str
deriving DecidableEq

/-- Outcome of a middleware step: pass the request on, answer with an
error status, or crash with a runtime panic. -/
inductive MwResult where
  | next
  | reject (status : Nat) (msg : Str)
  | panic
deriving DecidableEq

/-- Outcome of a request pipeline producing an `α` payload on success. -/
inductive HttpResult (α : Type) where
  | ok (payload : α)
  | err (status : Nat) (msg : Str)
  | panic
deriving DecidableEq

/-- Middleware `CSRFMiddleware`: skipped for GET requests and for any path
ending in `/telegram` or `/debug-mode` (a suffix match that ignores the
method); otherwise the CSRF token is taken from the `X-CSRF-Token` header,
falling back to the `_csrf` form value, and the session token from the
Authorization header only (`extractSessionToken`); with no session token
the check is skipped entirely, otherwise `validateCSRFToken` decides. -/
def csrfMiddleware (r : Request) : MwResult :=
  if r.method = "GET".data ∨ hasSuffix r.path "/telegram".data ∨
     hasSuffix r.path "/debug-mode".data then
    .next
  else
    let csrfToken := if r.xCsrfToken = [] then r.formCsrf else r.xCsrfToken
    let sessionToken := extractSessionToken r.authorizationHeader
    if sessionToken = [] then .next
    else
      match validateCSRFToken sessionToken csrfToken with
      | none => .panic
      | some true => .next
      | some false => .reject 403 "Invalid CSRF token".data

/-- Outcome of the authenticating middleware: the resolved user flows on
through the request context. -/
inductive AuthMwResult where
  | nextUser (u : User)
  | reject (status : Nat) (msg : Str)
deriving DecidableEq

/-- Middleware `RequireAuthCookie`: the session token is the cookie, with
the Authorization header as fallback; an unresolvable token is a 401. -/
def requireAuthCookie (db : DB) (store : Store) (now : Int) (r : Request) :
    AuthMwResult × Store :=
  let sessionToken :=
    if r.sessionCookie = [] then extractSessionToken r.authorizationHeader
    else r.sessionCookie
  if sessionToken = [] then (.reject 401 "Authentication required".data, store)
  else
    match getUserBySession db store now sessionToken with
    | (.error _, store') => (.reject 401 "Invalid or expired session".data, store')
    | (.ok u, store') => (.nextUser u, store')

/-- Handler `GetCSRFToken` (route `GET /auth/csrf-token`): extracts the
session token from the Authorization header; when present, issues a CSRF
token without consulting the session store or the database (the handler
takes neither). -/
def getCSRFToken (randomBytes : List Nat) (r : Request) : HttpResult Str :=
  let sessionToken := extractSessionToken r.authorizationHeader
  if sessionToken = [] then .err 401 "Session required".data
  else
    match generateCSRFToken randomBytes sessionToken with
    | none => .panic
    | some tok => .ok tok

/-- The `GET /auth/me` response payload. -/
structure UserResponse where
  id : Nat
  telegramID : Int
  isActive : Bool
  isAdmin : Bool
  contact : Option Contact
deriving DecidableEq

/-- Handler `GetMe` (route `GET /auth/me`): resolves the session (header
token only), computes the admin flag — `IsUserAdmin`, then the force-debug
flag, then the persisted debug-mode setting — and attaches the contact
found by Telegram ID. -/
def getMe (forceDebugMode : Bool) (db : DB) (store : Store) (now : Int) (r : Request) :
    HttpResult UserResponse × Store :=
  let sessionToken := extractSessionToken r.authorizationHeader
  if sessionToken = [] then (.err 401 "Authorization header required".data, store)
  else
    match getUserBySession db store now sessionToken with
    | (.error AuthErr.sessionNotFound, store') =>
        (.err 401 "Invalid or expired session".data, store')
    | (.error AuthErr.sessionExpired, store') =>
        (.err 401 "Invalid or expired session".data, store')
    | (.error AuthErr.userNotFound, store') =>
        (.err 401 "User not found".data, store')
    | (.error _, store') => (.err 500 "Internal server error".data, store')
    | (.ok user, store') =>
      let isAdminBase :=
        match isUserAdmin db user.id with
        | .ok b => b
        | .error _ => false
      let isAdmin :=
        if isAdminBase then true
        else if forceDebugMode then true
        else
          match getDebugMode db with
          | .ok true => true
          | _ => false
      let contact := contactGetByTelegramID db user.telegramID
      (.ok { id := user.id, telegramID := user.telegramID,
             isActive := user.isActive, isAdmin := isAdmin,
             contact := contact }, store')

/-- Handler `UpdateMyContact` (route `PUT /auth/contact`): extracts the
session token from the Authorization header only (a cookie alone yields a
401 here even after `RequireAuthCookie` accepted it), resolves the session
a second time, then applies `updateUserContact`.  The request body is
passed in already parsed. -/
def updateMyContact (db : DB) (store : Store) (now : Int) (r : Request)
    (body : UpdateUserContactData) : HttpResult Contact × DB × Store :=
  let sessionToken := extractSessionToken r.authorizationHeader
  if sessionToken = [] then (.err 401 "Authorization header required".data, db, store)
  else
    match getUserBySession db store now sessionToken with
    | (.error AuthErr.sessionNotFound, store') =>
        (.err 401 "Invalid or expired session".data, db, store')
    | (.error AuthErr.sessionExpired, store') =>
        (.err 401 "Invalid or expired session".data, db, store')
    | (.error AuthErr.userNotFound, store') =>
        (.err 401 "User not found".data, db, store')
    | (.error _, store') => (.err 500 "Internal server error".data, db, store')
    | (.ok user, store') =>
      match updateUserContact db user.id body with
      | .error AuthErr.contactNotFound => (.err 404 "Contact not found".data, db, store')
      | .error _ => (.err 500 "Internal server error".data, db, store')
      | .ok (c, db') => (.ok c, db', store')

/-- Middleware `requireAdminOrDebug` (cmd/server/main.go): the force-debug
flag admits everything; otherwise the persisted debug-mode setting (a
lookup failure is logged and treated as off); otherwise the `user_id`
request local must be present and `IsUserAdmin` must say yes. -/
def requireAdminOrDebug (forceDebugMode : Bool) (db : DB) (userIdLocal : Option Nat) :
    MwResult :=
  if forceDebugMode then .next
  else
    let debugOn :=
      match getDebugMode db with
      | .ok b => b
      | .error _ => false
    if debugOn then .next
    else
      match userIdLocal with
      | none => .reject 401 "Unauthorized".data
      | some uid =>
        match isUserAdmin db uid with
        | .error _ => .reject 500 "Internal server error".data
        | .ok true => .next
        | .ok false => .reject 403 "Admin rights required".data

/-- Handler `SetDebugMode` (system delivery): persists the parsed flag and
echoes it. -/
def setDebugModeHandler (db : DB) (enabled : Bool) : HttpResult Bool × DB :=
  (.ok enabled, setDebugMode db enabled)

/-- The `PUT /api/v1/auth/contact` pipeline as registered in
cmd/server/main.go: `CSRFMiddleware`, then `RequireAuthCookie`, then
`UpdateMyContact`. -/
def putAuthContactPipeline (db : DB) (store : Store) (now : Int) (r : Request)
    (body : UpdateUserContactData) : HttpResult Contact × DB × Store :=
  match csrfMiddleware r with
  | .panic => (.panic, db, store)
  | .reject s m => (.err s m, db, store)
  | .next =>
    match requireAuthCookie db store now r with
    | (.reject s m, store') => (.err s m, db, store')
    | (.nextUser _, store') => updateMyContact db store' now r body

/-- The `PUT /api/v1/system/debug-mode` pipeline as registered in
cmd/server/main.go: `CSRFMiddleware`, then `RequireAuthCookie`, then
`requireAdminOrDebug`, then `SetDebugMode`. -/
def putDebugModePipeline (forceDebugMode : Bool) (db : DB) (store : Store) (now : Int)
    (r : Request) (enabled : Bool) : HttpResult Bool × DB × Store :=
  match csrfMiddleware r with
  | .panic => (.panic, db, store)
  | .reject s m => (.err s m, db, store)
  | .next =>
    match requireAuthCookie db store now r with
    | (.reject s m, store') => (.err s m, db, store')
    | (.nextUser u, store') =>
      match requireAdminOrDebug forceDebugMode db (some u.id) with
      | .panic => (.panic, db, store')
      | .reject s m => (.err s m, db, store')
      | .next =>
        match setDebugModeHandler db enabled with
        | (res, db') => (res, db', store')

/-! ## Concrete fixtures

States, sessions and requests used by the closed evaluation theorems. -/

/-- Modelled from the spec: session tokens minted at login are UUID
strings (`uuid.New().String()` from the google/uuid library, which is not
part of the tree): 36 characters in the canonical 8-4-4-4-12 form. -/
def issuedSessionTokenLength : Nat := 36

/-- A UUID-shaped session token. -/
def tokA : Str := "aaaaaaaa-bbbb-cccc-dddd-eeeeeeeeeeee".data

/-- A second, distinct UUID-shaped session token. -/
def tokB : Str := "bbbbbbbb-cccc-dddd-eeee-ffffffffffff".data

/-- A fixed draw of the 16 random bytes of CSRF issuance. -/
def rbZero : List Nat := List.replicate 16 0

/-- The admin marker group. -/
def adminGroup : Group := { id := 1, name := adminGroupName }

/-- A contact that is a member of the admin group, linked to Telegram
ID 42. -/
def contactA : Contact :=
  { id := 5, name := "Alice".data, phone := "+71112223344".data,
    email := "alice@example.com".data, transport := [], printer := [],
    allergies := [], vk := [], telegram := [], telegramID := 42,
    groups := [adminGroup] }

/-- An active user linked (by Telegram ID) to `contactA`. -/
def userA : User := { id := 1, telegramID := 42, contactID := some 5, isActive := true }

/-- A deactivated user. -/
def userB : User := { id := 2, telegramID := 43, contactID := none, isActive := false }

/-- Session of `userA`, expiring at instant 1000. -/
def sessA : UserSession := { sessionToken := tokA, userID := 1, createdAt := 0, expiredAt := 1000 }

/-- Session of the deactivated `userB`, expiring at instant 1000. -/
def sessB : UserSession := { sessionToken := tokB, userID := 2, createdAt := 0, expiredAt := 1000 }

/-- Database fixture: both users, the admin-group contact, and the
persisted debug-mode setting switched on. -/
def dbA : DB :=
  { users := [userA, userB], contacts := [contactA],
    settings := [("debug_mode".data, "true".data)] }

/-- Store fixture holding both sessions. -/
def storeA : Store := [(sessionKey tokA, sessA), (sessionKey tokB, sessB)]

/-- An instant at which both fixture sessions are unexpired. -/
def nowA : Int := 500

/-- A `PUT /auth/contact` request carrying only the session cookie: no
Authorization header, no CSRF token. -/
def reqContactCookieOnly : Request :=
  { method := "PUT".data, path := "/api/v1/auth/contact".data,
    authorizationHeader := [], sessionCookie := tokA, xCsrfToken := [], formCsrf := [] }

/-- A `PUT /auth/contact` request presenting the session both as cookie
and as bearer header, still without a CSRF token. -/
def reqContactAuth : Request :=
  { method := "PUT".data, path := "/api/v1/auth/contact".data,
    authorizationHeader := "Bearer ".data ++ tokA, sessionCookie := tokA,
    xCsrfToken := [], formCsrf := [] }

/-- The CSRF token issuance produces for `tokA` under the fixed random
draw. -/
def csrfTokA : Str := hexEncode rbZero ++ tokA.take 8

/-- The same mutating request, now presenting the issued CSRF token. -/
def reqContactAuthCsrf : Request := { reqContactAuth with xCsrfToken := csrfTokA }

/-- A `PUT /system/debug-mode` request with a session (cookie and bearer
header) but no CSRF token. -/
def reqDebugModePut : Request :=
  { method := "PUT".data, path := "/api/v1/system/debug-mode".data,
    authorizationHeader := "Bearer ".data ++ tokA, sessionCookie := tokA,
    xCsrfToken := [], formCsrf := [] }

/-- A `GET /auth/me` request authenticated as the deactivated user. -/
def reqMeUserB : Request :=
  { method := "GET".data, path := "/api/v1/auth/me".data,
    authorizationHeader := "Bearer ".data ++ tokB, sessionCookie := [],
    xCsrfToken := [], formCsrf := [] }

/-- A `GET /auth/csrf-token` request with a bearer token that is in no
session store. -/
def reqCsrfUnknown : Request :=
  { method := "GET".data, path := "/api/v1/auth/csrf-token".data,
    authorizationHeader := "Bearer ".data ++ "unknown-token-xyz".data,
    sessionCookie := [], xCsrfToken := [], formCsrf := [] }

/-- A `GET /auth/csrf-token` request whose bearer token `t` is non-empty
but shorter than 8 characters. -/
def reqCsrfShort : Request :=
  { method := "GET".data, path := "/api/v1/auth/csrf-token".data,
    authorizationHeader := "Bearer t".data, sessionCookie := [],
    xCsrfToken := [], formCsrf := [] }

/-- A third session token sharing its first 8 characters with `tokA` while
being a different token. -/
def tokC : Str := "aaaaaaaa-0000-1111-2222-333333333333".data

/-- A `GET /auth/me` request authenticated as the active user `userA`. -/
def reqMeUserA : Request :=
  { method := "GET".data, path := "/api/v1/auth/me".data,
    authorizationHeader := "Bearer ".data ++ tokA, sessionCookie := [],
    xCsrfToken := [], formCsrf := [] }

/-- A session whose expiry instant is 100. -/
def sessEdge : UserSession := { sessionToken := tokA, userID := 1, createdAt := 0, expiredAt := 100 }

/-- A store holding only `sessEdge`. -/
def storeEdge : Store := [(sessionKey tokA, sessEdge)]

/-- The HTTP status a pipeline result answers with (fiber's `c.JSON`
defaults to 200 on success); `none` for a runtime panic. -/
def resultStatus {α : Type} : HttpResult α → Option Nat
  | .ok _ => some 200
  | .err s _ => some s
  | .panic => none

deriving instance DecidableEq for Except

/-! ## Helper lemmas -/

/-- Hex encoding yields two characters per byte. -/
theorem hexEncode_length (bs : List Nat) : (hexEncode bs).length = 2 * bs.length := by
  induction bs with
  | nil => rfl
  | cons b bs ih =>
    simp only [hexEncode, List.flatMap_cons, List.length_append, List.length_cons,
      List.length_nil] at ih ⊢
    omega

/-- A token issued for a session validates against that same session. -/
theorem validateCSRFToken_generate (rb : List Nat) (s t : Str)
    (hrb : rb.length = 16) (h : generateCSRFToken rb s = some t) :
    validateCSRFToken s t = some true := by
  unfold generateCSRFToken at h
  by_cases hs : s.length < 8
  · simp [hs] at h
  · simp only [hs, if_false, Option.some.injEq, ite_false] at h
    have h32 : (hexEncode rb).length = 32 := by rw [hexEncode_length, hrb]
    have htake : (s.take 8).length = 8 := by
      simp [List.length_take]
      omega
    have hlen : t.length = 40 := by
      rw [← h, List.length_append, h32, htake]
    have hdrop : t.drop 32 = s.take 8 := by
      rw [← h, ← h32, List.drop_left]
    unfold validateCSRFToken
    rw [if_neg (by omega), if_neg (by omega), hdrop]
    simp

/-- After the defensive delete, a direct store lookup for the token
misses. -/
theorem lookupSession_deleteSession (store : Store) (token : Str) :
    lookupSession (deleteSession store token) token = none := by
  unfold lookupSession deleteSession
  induction store with
  | nil => rfl
  | cons p ps ih =>
    by_cases h : p.1 = sessionKey token
    · simp [h]
    · simp [List.filter_cons, h]

/-- The source's sort-based data-check string coincides with the canonical
lexicographic form the specification describes. -/
theorem createDataCheckString_canonical (a : TelegramAuthData) :
    createDataCheckString a = canonicalDataCheckString a := by
  unfold createDataCheckString canonicalDataCheckString
  by_cases h1 : a.firstName = [] <;> by_cases h2 : a.lastName = [] <;>
    by_cases h3 : a.username = [] <;> by_cases h4 : a.photoURL = [] <;>
      simp only [h1, h2, h3, h4, ne_eq, not_true_eq_false, not_false_eq_true,
        if_true, if_false, ite_true, ite_false, List.append_nil, List.nil_append] <;>
      rfl

/-! ## Claim theorems -/

/-- Claim C1: for every login claim and bot secret, signature verification
returns true if and only if the hex-encoded HMAC-SHA256 — keyed by the
SHA-256 digest of the bot secret — of the data-check string (every
non-empty claim field except the signature, formatted as `key=value`,
sorted lexicographically by key, newline-joined) equals the presented
signature AND the claim's issue timestamp is no older than 24 hours before
the verification instant; on mismatch or staleness it returns false rather
than raising an error. -/
theorem c1_verify_iff (sha256 : Str → List Nat) (hmacSha256 : List Nat → Str → List Nat)
    (a : TelegramAuthData) (botToken : Str) (nowNs : Int) :
    verifyTelegramAuth sha256 hmacSha256 a botToken nowNs = true ↔
      (hexEncode (hmacSha256 (sha256 botToken) (canonicalDataCheckString a)) = a.hash ∧
       nowNs - a.authDate * 1000000000 ≤ 24 * 60 * 60 * 1000000000) := by
  unfold verifyTelegramAuth
  rw [createDataCheckString_canonical]
  split_ifs with h1
  all_goals simp_all
  all_goals intros
  all_goals omega

/-- Claim C2 counterexample: the `PUT /auth/contact` request that carries
a valid session cookie but no `X-CSRF-Token` header is not rejected with
status 403 — the CSRF middleware skips it (it reads the session token only
from the Authorization header, which is absent), and the handler itself
then rejects with 401 `Authorization header required`, so the request
neither receives a 403 nor succeeds. -/
theorem c2_counterexample :
    putAuthContactPipeline dbA storeA nowA reqContactCookieOnly {} =
      (.err 401 "Authorization header required".data, dbA, storeA) ∧
    resultStatus (putAuthContactPipeline dbA storeA nowA reqContactCookieOnly {}).1 ≠
      some 403 := by decide

/-- Claim C2 (amended): when the session token is presented through the
Authorization Bearer header, a `PUT /auth/contact` request without a CSRF
token (header or form) is rejected with 403 by the CSRF middleware, and
the same request presenting the token issued by `GET /auth/csrf-token` for
that same session succeeds; a request presenting the session only as a
cookie is instead skipped by the CSRF middleware and rejected 401 by the
handler (see the counterexample). -/
theorem c2_amended :
    (∀ (db : DB) (store : Store) (now : Int) (body : UpdateUserContactData) (r : Request),
      r.method = "PUT".data → r.path = "/api/v1/auth/contact".data →
      r.xCsrfToken = [] → r.formCsrf = [] →
      extractSessionToken r.authorizationHeader ≠ [] →
      putAuthContactPipeline db store now r body =
        (.err 403 "Invalid CSRF token".data, db, store)) ∧
    getCSRFToken rbZero reqContactAuth = .ok csrfTokA ∧
    putAuthContactPipeline dbA storeA nowA reqContactAuthCsrf {} =
      (.ok { contactA with groups := [] }, dbA, storeA) := by
  refine ⟨?_, by decide, by decide⟩
  intro db store now body r hm hp hx hf hs
  have hval : validateCSRFToken (extractSessionToken r.authorizationHeader) [] =
      some false := by
    simp [validateCSRFToken]
  have hmw : csrfMiddleware r = .reject 403 "Invalid CSRF token".data := by
    unfold csrfMiddleware
    rw [hm, hp, hx, hf, if_neg (by decide)]
    dsimp only
    rw [if_pos rfl, if_neg hs, hval]
  unfold putAuthContactPipeline
  rw [hmw]

/-- Claim C2 witness: the amended statement applied to the fixture
request that presents the session as a bearer header. -/
theorem c2_amended_witness :
    putAuthContactPipeline dbA storeA nowA reqContactAuth {} =
      (.err 403 "Invalid CSRF token".data, dbA, storeA) ∧
    getCSRFToken rbZero reqContactAuth = .ok csrfTokA ∧
    putAuthContactPipeline dbA storeA nowA reqContactAuthCsrf {} =
      (.ok { contactA with groups := [] }, dbA, storeA) := by
  obtain ⟨h1, h2, h3⟩ := c2_amended
  exact ⟨h1 dbA storeA nowA {} reqContactAuth (by decide) (by decide) (by decide)
          (by decide) (by decide), h2, h3⟩

/-- Claim C3 (code bug evidence): a `PUT /system/debug-mode` request that
presents a session but no CSRF token is passed through by the CSRF
middleware — its path-suffix skip of `/debug-mode` ignores the method — so
the CSRF-less write reaches the handler and flips the persisted setting
from true to false. -/
theorem c3_debug_mode_write_without_csrf :
    reqDebugModePut.xCsrfToken = [] ∧ reqDebugModePut.formCsrf = [] ∧
    reqDebugModePut.method ≠ "GET".data ∧
    csrfMiddleware reqDebugModePut = .next ∧
    putDebugModePipeline false dbA storeA nowA reqDebugModePut false =
      (.ok false, setDebugMode dbA false, storeA) ∧
    getDebugMode dbA = .ok true ∧
    getDebugMode (setDebugMode dbA false) = .ok false := by decide

/-- Claim C4 counterexample: a CSRF token issued for a different session
token is accepted whenever the two session tokens share their first 8
characters, contradicting the claim's `false for every presented token
produced by issuance for a different session token`. -/
theorem c4_counterexample :
    tokC ≠ tokA ∧
    generateCSRFToken rbZero tokC = some (hexEncode rbZero ++ tokC.take 8) ∧
    validateCSRFToken tokA (hexEncode rbZero ++ tokC.take 8) = some true := by decide

/-- Claim C4 (amended): validation accepts every token issuance produces
for the same session token; a token issued for a different session token
is accepted exactly when the two session tokens agree on their first 8
characters (so rejection is guaranteed only for tokens whose first 8
characters differ); presented tokens shorter than 40 characters are
rejected; and otherwise acceptance means the characters from position 32
on (all of them, not merely the last 8) equal the first 8 characters of
the session token. -/
theorem c4_amended :
    (∀ (rb : List Nat) (s t : Str), rb.length = 16 →
       generateCSRFToken rb s = some t → validateCSRFToken s t = some true) ∧
    (∀ (rb : List Nat) (s u t : Str), rb.length = 16 → 8 ≤ s.length →
       generateCSRFToken rb u = some t →
       (validateCSRFToken s t = some true ↔ u.take 8 = s.take 8)) ∧
    (∀ (s c : Str), c.length < 40 → validateCSRFToken s c = some false) ∧
    (∀ (s c : Str), 40 ≤ c.length → 8 ≤ s.length →
       (validateCSRFToken s c = some true ↔ c.drop 32 = s.take 8)) := by
  have hshort : ∀ (s c : Str), c.length < 40 → validateCSRFToken s c = some false := by
    intro s c hc
    unfold validateCSRFToken
    rw [if_pos hc]
  have hlong : ∀ (s c : Str), 40 ≤ c.length → 8 ≤ s.length →
      (validateCSRFToken s c = some true ↔ c.drop 32 = s.take 8) := by
    intro s c hc hs
    unfold validateCSRFToken
    rw [if_neg (by omega), if_neg (by omega)]
    simp
  refine ⟨fun rb s t hrb h => validateCSRFToken_generate rb s t hrb h, ?_, hshort, hlong⟩
  intro rb s u t hrb hs h
  unfold generateCSRFToken at h
  by_cases hu : u.length < 8
  · simp [hu] at h
  · simp only [hu, if_false, Option.some.injEq, ite_false] at h
    have h32 : (hexEncode rb).length = 32 := by rw [hexEncode_length, hrb]
    have htake : (u.take 8).length = 8 := by
      simp [List.length_take]
      omega
    have hlen : 40 ≤ t.length := by
      rw [← h, List.length_append, h32, htake]
    have hdrop : t.drop 32 = u.take 8 := by
      rw [← h, ← h32, List.drop_left]
    rw [hlong s t hlen hs, hdrop]

/-- Claim C4 witness: the amended statement applied to the concrete
session-token fixtures. -/
theorem c4_amended_witness :
    validateCSRFToken tokA csrfTokA = some true ∧
    (validateCSRFToken tokA (hexEncode rbZero ++ tokC.take 8) = some true ↔
      tokC.take 8 = tokA.take 8) ∧
    validateCSRFToken tokA [] = some false ∧
    (validateCSRFToken tokA csrfTokA = some true ↔ csrfTokA.drop 32 = tokA.take 8) := by
  obtain ⟨h1, h2, h3, h4⟩ := c4_amended
  exact ⟨h1 rbZero tokA csrfTokA (by decide) (by decide),
         h2 rbZero tokA tokC (hexEncode rbZero ++ tokC.take 8) (by decide) (by decide)
           (by decide),
         h3 tokA [] (by decide),
         h4 tokA csrfTokA (by decide) (by decide)⟩

/-- Claim C5: with the process-wide force-debug flag set at startup, every
authenticated user — whatever their group membership — is treated as
privileged: `GET /auth/me` reports `is_admin = true` and the
`PUT /system/debug-mode` authorization gate admits them; the force-debug
flag is consulted before the persisted debug-mode setting (with the flag
set, the persisted setting never changes the outcome), and the persisted
setting alone, when true, also grants the override. -/
theorem c5_force_debug_grants_admin :
    (∀ (db : DB) (store store2 : Store) (now : Int) (r : Request) (u : User),
       extractSessionToken r.authorizationHeader ≠ [] →
       getUserBySession db store now (extractSessionToken r.authorizationHeader) =
         (.ok u, store2) →
       getMe true db store now r =
         (.ok { id := u.id, telegramID := u.telegramID, isActive := u.isActive,
                isAdmin := true, contact := contactGetByTelegramID db u.telegramID },
          store2)) ∧
    (∀ (db : DB) (uid : Option Nat), requireAdminOrDebug true db uid = .next) ∧
    (∀ (db : DB) (store store2 : Store) (now : Int) (r : Request) (u : User),
       extractSessionToken r.authorizationHeader ≠ [] →
       getUserBySession db store now (extractSessionToken r.authorizationHeader) =
         (.ok u, store2) →
       getDebugMode db = .ok true →
       getMe false db store now r =
         (.ok { id := u.id, telegramID := u.telegramID, isActive := u.isActive,
                isAdmin := true, contact := contactGetByTelegramID db u.telegramID },
          store2)) ∧
    (∀ (db : DB) (uid : Option Nat), getDebugMode db = .ok true →
       requireAdminOrDebug false db uid = .next) := by
  refine ⟨?_, ?_, ?_, ?_⟩
  · intro db store store2 now r u hx hres
    unfold getMe
    rw [if_neg hx, hres]
    simp
  · intro db uid
    simp [requireAdminOrDebug]
  · intro db store store2 now r u hx hres hdbg
    unfold getMe
    rw [if_neg hx, hres]
    simp [hdbg]
  · intro db uid hdbg
    simp [requireAdminOrDebug, hdbg]

/-- Claim C5 witness: the force-debug flag makes the concrete non-admin
`userA` privileged in both `GET /auth/me` and the debug-mode gate, and the
persisted setting alone does the same. -/
theorem c5_force_debug_grants_admin_witness :
    getMe true dbA storeA nowA reqMeUserA =
      (.ok { id := userA.id, telegramID := userA.telegramID,
             isActive := userA.isActive, isAdmin := true,
             contact := contactGetByTelegramID dbA userA.telegramID }, storeA) ∧
    requireAdminOrDebug true dbA (some 1) = .next ∧
    getMe false dbA storeA nowA reqMeUserA =
      (.ok { id := userA.id, telegramID := userA.telegramID,
             isActive := userA.isActive, isAdmin := true,
             contact := contactGetByTelegramID dbA userA.telegramID }, storeA) ∧
    requireAdminOrDebug false dbA (some 1) = .next := by
  obtain ⟨h1, h2, h3, h4⟩ := c5_force_debug_grants_admin
  exact ⟨h1 dbA storeA storeA nowA reqMeUserA userA (by decide) (by decide),
         h2 dbA (some 1),
         h3 dbA storeA storeA nowA reqMeUserA userA (by decide) (by decide) (by decide),
         h4 dbA (some 1) (by decide)⟩

/-- Claim C6 (code bug evidence): the concrete user whose stored directory
entry is a member of the group named `Администраторы` is still answered
`not admin`, because `IsUserAdmin` scans the group associations of a
contact loaded by `GetByTelegramID`, which does not preload them — the
loaded association list is always empty; the spec-modelled variant that
sees the stored memberships answers true on the same state. -/
theorem c6_admin_check_sees_no_groups :
    getUserByID dbA 1 = some userA ∧
    dbA.contacts.find? (fun c => c.telegramID = userA.telegramID) = some contactA ∧
    contactA.groups.any (fun g => g.name = adminGroupName) = true ∧
    contactGetByTelegramID dbA userA.telegramID = some { contactA with groups := [] } ∧
    isUserAdmin dbA 1 = .ok false ∧
    isUserAdminSpec dbA 1 = .ok true := by decide

/-- Claim C7 counterexample: a stored session whose expiry instant equals
the current instant still resolves successfully — the code treats a
session as expired only strictly after its expiry (`time.Now().After`),
while the claim demands the `SessionExpired` outcome already when
`expiry ≤ now`. -/
theorem c7_counterexample :
    sessEdge.expiredAt ≤ 100 ∧
    getSession storeEdge 100 tokA = (.ok sessEdge, storeEdge) ∧
    (getUserBySession dbA storeEdge 100 tokA).1 = .ok userA := by decide

/-- Claim C7 (amended): for every stored session whose expiry lies
strictly before the current instant, resolving its token returns the
session-expired outcome and deletes the stale entry, so a subsequent
direct store lookup for that token misses; a token absent from the store
resolves to session-not-found.  (At exact equality of expiry and now the
session still resolves; see the counterexample.) -/
theorem c7_amended :
    (∀ (store : Store) (now : Int) (token : Str) (s : UserSession),
       lookupSession store token = some s → s.expiredAt < now →
       getSession store now token =
         (.error "session expired".data, deleteSession store token) ∧
       lookupSession (deleteSession store token) token = none ∧
       ∀ db : DB, (getUserBySession db store now token).1 = .error .sessionExpired) ∧
    (∀ (store : Store) (now : Int) (token : Str),
       lookupSession store token = none →
       getSession store now token = (.error "session not found".data, store) ∧
       ∀ db : DB, (getUserBySession db store now token).1 = .error .sessionNotFound) := by
  constructor
  · intro store now token s hlook hexp
    have hget : getSession store now token =
        (.error "session expired".data, deleteSession store token) := by
      unfold getSession
      rw [hlook]
      dsimp only
      rw [if_pos (by omega)]
    refine ⟨hget, lookupSession_deleteSession store token, ?_⟩
    intro db
    have h1 : containsSubstr "session expired".data "not found".data = false := by decide
    have h2 : containsSubstr "session expired".data "expired".data = true := by decide
    unfold getUserBySession
    rw [hget]
    simp [h1, h2]
  · intro store now token hlook
    have hget : getSession store now token = (.error "session not found".data, store) := by
      unfold getSession
      rw [hlook]
    refine ⟨hget, ?_⟩
    intro db
    have h1 : containsSubstr "session not found".data "not found".data = true := by decide
    unfold getUserBySession
    rw [hget]
    simp [h1]

/-- Claim C7 witness: the amended statement applied to a session one
instant past its expiry and to a token missing from an empty store. -/
theorem c7_amended_witness :
    (getSession storeEdge 101 tokA =
       (.error "session expired".data, deleteSession storeEdge tokA) ∧
     lookupSession (deleteSession storeEdge tokA) tokA = none ∧
     (getUserBySession dbA storeEdge 101 tokA).1 = .error .sessionExpired) ∧
    (getSession [] 0 tokA = (.error "session not found".data, []) ∧
     (getUserBySession dbA [] 0 tokA).1 = .error .sessionNotFound) := by
  have h1 := c7_amended.1 storeEdge 101 tokA sessEdge (by decide) (by decide)
  have h2 := c7_amended.2 [] 0 tokA (by decide)
  exact ⟨⟨h1.1, h1.2.1, h1.2.2 dbA⟩, ⟨h2.1, h2.2 dbA⟩⟩

/-- Claim C8 counterexample: resolving the unexpired session of the
inactive `userB` yields the `userNotFound` outcome, distinct from
`sessionNotFound`, and `GET /auth/me` answers 401 `User not found` for it
versus 401 `Invalid or expired session` for a missing session — same
status but different bodies, so the responses are not identical and the
caller can distinguish a deactivated account from a missing session. -/
theorem c8_counterexample :
    (getUserBySession dbA storeA nowA tokB).1 = .error .userNotFound ∧
    AuthErr.userNotFound ≠ AuthErr.sessionNotFound ∧
    (getMe false dbA storeA nowA reqMeUserB).1 = .err 401 "User not found".data ∧
    (getMe false dbA [] nowA reqMeUserB).1 =
      .err 401 "Invalid or expired session".data ∧
    "User not found".data ≠ "Invalid or expired session".data := by decide

/-- Claim C8 (amended): an unexpired session of an existing but inactive
user resolves to the user-not-found outcome — not session-not-found — and
`GET /auth/me` maps it to status 401 exactly like session-not-found but
with a different body (`User not found` versus `Invalid or expired
session`): the account state is indistinguishable by status yet
distinguishable by message. -/
theorem c8_amended :
    (∀ (db : DB) (store : Store) (now : Int) (token : Str) (s : UserSession) (u : User),
       lookupSession store token = some s → ¬ now > s.expiredAt →
       getUserByID db s.userID = some u → u.isActive = false →
       getUserBySession db store now token = (.error .userNotFound, store)) ∧
    (∀ (db : DB) (store store2 : Store) (now : Int) (r : Request),
       extractSessionToken r.authorizationHeader ≠ [] →
       getUserBySession db store now (extractSessionToken r.authorizationHeader) =
         (.error .userNotFound, store2) →
       getMe false db store now r = (.err 401 "User not found".data, store2)) ∧
    (∀ (db : DB) (store store2 : Store) (now : Int) (r : Request),
       extractSessionToken r.authorizationHeader ≠ [] →
       getUserBySession db store now (extractSessionToken r.authorizationHeader) =
         (.error .sessionNotFound, store2) →
       getMe false db store now r =
         (.err 401 "Invalid or expired session".data, store2)) := by
  refine ⟨?_, ?_, ?_⟩
  · intro db store now token s u hlook hexp huser hact
    unfold getUserBySession getSession
    rw [hlook]
    dsimp only
    rw [if_neg hexp]
    simp [huser, hact]
  · intro db store store2 now r hx hres
    unfold getMe
    rw [if_neg hx, hres]
  · intro db store store2 now r hx hres
    unfold getMe
    rw [if_neg hx, hres]

/-- Claim C8 witness: the amended statement applied to the inactive
`userB` fixtures. -/
theorem c8_amended_witness :
    getUserBySession dbA storeA nowA tokB = (.error .userNotFound, storeA) ∧
    getMe false dbA storeA nowA reqMeUserB = (.err 401 "User not found".data, storeA) ∧
    getMe false dbA [] nowA reqMeUserB =
      (.err 401 "Invalid or expired session".data, []) := by
  obtain ⟨h1, h2, h3⟩ := c8_amended
  exact ⟨h1 dbA storeA nowA tokB sessB userB (by decide) (by decide) (by decide) (by decide),
         h2 dbA storeA storeA nowA reqMeUserB (by decide) (by decide),
         h3 dbA [] [] nowA reqMeUserB (by decide) (by decide)⟩

/-- Claim C9 counterexample: `GET /auth/csrf-token` issues a token for a
bearer token that resolves to no session (the handler consults neither the
store nor the database), contradicting `no token is issued and the request
is rejected as unauthorized` for unresolvable tokens. -/
theorem c9_counterexample :
    getCSRFToken rbZero reqCsrfUnknown = .ok (hexEncode rbZero ++ "unknown-".data) ∧
    (getUserBySession dbA storeA nowA "unknown-token-xyz".data).1 =
      .error .sessionNotFound := by decide

/-- Claim C9 (amended): `GET /auth/csrf-token` requires only a non-empty
bearer token in the Authorization header: without one it answers 401
`Session required`; with one of length at least 8 it issues a token
derived from that string without resolving any session — the handler takes
neither the session store nor the database as input, so unknown, expired
and inactive-user tokens are all served alike. -/
theorem c9_amended :
    (∀ (rb : List Nat) (r : Request),
       extractSessionToken r.authorizationHeader = [] →
       getCSRFToken rb r = .err 401 "Session required".data) ∧
    (∀ (rb : List Nat) (r : Request),
       extractSessionToken r.authorizationHeader ≠ [] →
       8 ≤ (extractSessionToken r.authorizationHeader).length →
       getCSRFToken rb r =
         .ok (hexEncode rb ++ (extractSessionToken r.authorizationHeader).take 8)) := by
  constructor
  · intro rb r hx
    unfold getCSRFToken
    simp [hx]
  · intro rb r hx hlen
    unfold getCSRFToken generateCSRFToken
    rw [if_neg hx, if_neg (by omega)]

/-- Claim C9 witness: the amended statement applied to a cookie-only
request and to the unknown-token request. -/
theorem c9_amended_witness :
    getCSRFToken rbZero reqContactCookieOnly = .err 401 "Session required".data ∧
    getCSRFToken rbZero reqCsrfUnknown =
      .ok (hexEncode rbZero ++
        (extractSessionToken reqCsrfUnknown.authorizationHeader).take 8) := by
  exact ⟨c9_amended.1 rbZero reqContactCookieOnly (by decide),
         c9_amended.2 rbZero reqCsrfUnknown (by decide) (by decide)⟩

/-- Claim C10: CSRF token issuance and validation slice the first 8
characters of the session token without a length check, so they are total
only for session tokens of length at least 8: a `GET /auth/csrf-token`
request with header `Bearer t` — a non-empty token shorter than 8 — makes
the slice panic, and a presented token of length at least 40 makes
validation panic for such short session tokens; session tokens the system
itself issues are 36-character UUID strings, which satisfy the
precondition. -/
theorem c10_short_session_token_panics :
    (∀ (rb : List Nat) (s : Str), 8 ≤ s.length →
       (generateCSRFToken rb s).isSome = true) ∧
    (∀ (rb : List Nat) (s : Str), s.length = issuedSessionTokenLength →
       (generateCSRFToken rb s).isSome = true) ∧
    (∀ (rb : List Nat) (s : Str), s.length < 8 → generateCSRFToken rb s = none) ∧
    (∀ (s c : Str), 40 ≤ c.length → s.length < 8 → validateCSRFToken s c = none) ∧
    extractSessionToken "Bearer t".data = "t".data ∧
    ("t".data ≠ ([] : Str)) ∧ ("t".data).length < 8 ∧
    (∀ rb : List Nat, getCSRFToken rb reqCsrfShort = .panic) := by
  refine ⟨?_, ?_, ?_, ?_, by decide, by decide, by decide, ?_⟩
  · intro rb s h
    unfold generateCSRFToken
    rw [if_neg (by omega)]
    rfl
  · intro rb s h
    unfold generateCSRFToken
    simp only [issuedSessionTokenLength] at h
    rw [if_neg (by omega)]
    rfl
  · intro rb s h
    unfold generateCSRFToken
    rw [if_pos h]
  · intro s c hc hs
    unfold validateCSRFToken
    rw [if_neg (by omega), if_pos hs]
  · intro rb
    have hx : extractSessionToken reqCsrfShort.authorizationHeader = "t".data := by decide
    unfold getCSRFToken generateCSRFToken
    rw [hx]
    simp

/-- Claim C10 witness: the precondition facts applied at concrete tokens —
the 36-character fixtures succeed, the one-character token panics in both
issuance and in the `GET /auth/csrf-token` handler. -/
theorem c10_short_session_token_panics_witness :
    (generateCSRFToken rbZero tokA).isSome = true ∧
    (generateCSRFToken rbZero tokB).isSome = true ∧
    generateCSRFToken rbZero "t".data = none ∧
    validateCSRFToken "t".data csrfTokA = none ∧
    getCSRFToken rbZero reqCsrfShort = .panic := by
  obtain ⟨h1, h2, h3, h4, -, -, -, h8⟩ := c10_short_session_token_panics
  exact ⟨h1 rbZero tokA (by decide), h2 rbZero tokB (by decide),
         h3 rbZero ("t".data) (by decide), h4 ("t".data) csrfTokA (by decide) (by decide),
         h8 rbZero⟩

end Rim
